import Mathlib

/-!
Verification of the job/status core of the DMOD scheduler
(`src/python/lib/scheduler/dmod/scheduler/job/job.py`), as a shallow
embedding in Lean 4.  Python enum classes become inductive types with
per-value attribute functions; the `for value in Enum` iteration order of
Python is captured by an explicit `values` list in declaration order;
Python string operations `str.strip()` / `str.lower()` are modelled over
the character list of the string; the ambient wall clock consumed by
`datetime.now()` is modelled as an explicit `now : Nat` argument threaded
through every mutator.  Values that can be Python `None` are `Option`s;
a Python function body that can fall through without a `return` yields
`none`.
-/

namespace DMOD

/-- Python `str.strip()` on the argument-free form: remove leading and
trailing whitespace. -/
def pyStrip (s : String) : String :=
  ⟨((s.data.dropWhile Char.isWhitespace).reverse.dropWhile Char.isWhitespace).reverse⟩

/-- Python `str.lower()` (the names involved are ASCII). -/
def pyLower (s : String) : String :=
  ⟨s.data.map Char.toLower⟩

/-- A Python argument that is expected to be an optional string: `None`, an
actual string, or a value of some other (non-`str`) type. -/
inductive PyNameArg where
  | pynone
  | pystr (s : String)
  | nonstr
  deriving DecidableEq, Repr

/-- `JobAllocationParadigm` enum from job.py. -/
inductive JobAllocationParadigm where
  | FILL_NODES
  | ROUND_ROBIN
  | SINGLE_NODE
  deriving DecidableEq, Repr, Fintype

namespace JobAllocationParadigm

/-- The `.name` attribute of each enum member. -/
def name : JobAllocationParadigm → String
  | FILL_NODES => "FILL_NODES"
  | ROUND_ROBIN => "ROUND_ROBIN"
  | SINGLE_NODE => "SINGLE_NODE"

/-- Declaration order of the enum members, which is Python's iteration
order for `for enum_val in cls`. -/
def values : List JobAllocationParadigm :=
  [FILL_NODES, ROUND_ROBIN, SINGLE_NODE]

/-- `JobAllocationParadigm.get_default_selection`.  The Python method body
consists solely of a docstring and has no `return` statement, so calling it
returns `None`; hence the result type is `Option` and the value is `none`.
(The docstring itself promises the `SINGLE_NODE` value.) -/
def get_default_selection : Option JobAllocationParadigm := none

/-- `JobAllocationParadigm.get_from_name`: `None`/non-string inputs fall
back to `get_default_selection`; otherwise the stripped name is matched
case-sensitively against member names, falling back to
`get_default_selection` when unmatched. -/
def get_from_name : PyNameArg → Option JobAllocationParadigm
  | .pynone => get_default_selection
  | .nonstr => get_default_selection
  | .pystr s =>
    let trimmed_name := pyStrip s
    match values.find? (fun v => decide (v.name = trimmed_name)) with
    | some v => some v
    | none => get_default_selection

end JobAllocationParadigm

/-- `JobExecStep` enum from job.py. -/
inductive JobExecStep where
  | DEFAULT
  | AWAITING_ALLOCATION
  | ALLOCATED
  | SCHEDULED
  | RUNNING
  | STOPPED
  | COMPLETED
  | FAILED
  deriving DecidableEq, Repr, Fintype

namespace JobExecStep

/-- First tuple component of each `JobExecStep` member. -/
def uid : JobExecStep → Int
  | DEFAULT => 0
  | AWAITING_ALLOCATION => 1
  | ALLOCATED => 2
  | SCHEDULED => 3
  | RUNNING => 4
  | STOPPED => 5
  | COMPLETED => 6
  | FAILED => -1

/-- Second tuple component (`is_interrupted`). -/
def is_interrupted : JobExecStep → Bool
  | STOPPED => true
  | FAILED => true
  | _ => false

/-- Third tuple component (`is_error`). -/
def is_error : JobExecStep → Bool
  | FAILED => true
  | _ => false

end JobExecStep

/-- `JobExecPhase` enum from job.py. -/
inductive JobExecPhase where
  | INIT
  | MODEL_EXEC
  | OUTPUT_EXEC
  | CLOSED
  | UNKNOWN
  deriving DecidableEq, Repr, Fintype

namespace JobExecPhase

/-- First tuple component of each `JobExecPhase` member. -/
def uid : JobExecPhase → Int
  | INIT => 1
  | MODEL_EXEC => 2
  | OUTPUT_EXEC => 3
  | CLOSED => 4
  | UNKNOWN => -1

/-- Second tuple component (`is_active`). -/
def is_active : JobExecPhase → Bool
  | INIT => true
  | MODEL_EXEC => true
  | OUTPUT_EXEC => true
  | CLOSED => false
  | UNKNOWN => false

/-- Third tuple component (`default_start_step`). -/
def default_start_step : JobExecPhase → JobExecStep
  | INIT => .DEFAULT
  | MODEL_EXEC => .AWAITING_ALLOCATION
  | OUTPUT_EXEC => .AWAITING_ALLOCATION
  | CLOSED => .COMPLETED
  | UNKNOWN => .DEFAULT

end JobExecPhase

/-- `JobStatus` enum from job.py. -/
inductive JobStatus where
  | CREATED
  | MODEL_EXEC_AWAITING_ALLOCATION
  | MODEL_EXEC_ALLOCATED
  | MODEL_EXEC_SCHEDULED
  | MODEL_EXEC_RUNNING
  | MODEL_EXEC_STOPPED
  | MODEL_EXEC_COMPLETED
  | MODEL_EXEC_FAILED
  | OUTPUT_EXEC_AWAITING_ALLOCATION
  | OUTPUT_EXEC_ALLOCATED
  | OUTPUT_EXEC_SCHEDULED
  | OUTPUT_EXEC_RUNNING
  | OUTPUT_EXEC_STOPPED
  | OUTPUT_EXEC_COMPLETED
  | OUTPUT_EXEC_FAILED
  | CLOSED
  | CLOSED_FAILURE
  | UNKNOWN
  deriving DecidableEq, Repr, Fintype

namespace JobStatus

/-- The `.name` attribute of each `JobStatus` member. -/
def name : JobStatus → String
  | CREATED => "CREATED"
  | MODEL_EXEC_AWAITING_ALLOCATION => "MODEL_EXEC_AWAITING_ALLOCATION"
  | MODEL_EXEC_ALLOCATED => "MODEL_EXEC_ALLOCATED"
  | MODEL_EXEC_SCHEDULED => "MODEL_EXEC_SCHEDULED"
  | MODEL_EXEC_RUNNING => "MODEL_EXEC_RUNNING"
  | MODEL_EXEC_STOPPED => "MODEL_EXEC_STOPPED"
  | MODEL_EXEC_COMPLETED => "MODEL_EXEC_COMPLETED"
  | MODEL_EXEC_FAILED => "MODEL_EXEC_FAILED"
  | OUTPUT_EXEC_AWAITING_ALLOCATION => "OUTPUT_EXEC_AWAITING_ALLOCATION"
  | OUTPUT_EXEC_ALLOCATED => "OUTPUT_EXEC_ALLOCATED"
  | OUTPUT_EXEC_SCHEDULED => "OUTPUT_EXEC_SCHEDULED"
  | OUTPUT_EXEC_RUNNING => "OUTPUT_EXEC_RUNNING"
  | OUTPUT_EXEC_STOPPED => "OUTPUT_EXEC_STOPPED"
  | OUTPUT_EXEC_COMPLETED => "OUTPUT_EXEC_COMPLETED"
  | OUTPUT_EXEC_FAILED => "OUTPUT_EXEC_FAILED"
  | CLOSED => "CLOSED"
  | CLOSED_FAILURE => "CLOSED_FAILURE"
  | UNKNOWN => "UNKNOWN"

/-- First tuple component of each `JobStatus` member (the stable id). -/
def uid : JobStatus → Int
  | CREATED => 0
  | MODEL_EXEC_AWAITING_ALLOCATION => 1
  | MODEL_EXEC_ALLOCATED => 2
  | MODEL_EXEC_SCHEDULED => 3
  | MODEL_EXEC_RUNNING => 4
  | MODEL_EXEC_STOPPED => 5
  | MODEL_EXEC_COMPLETED => 6
  | MODEL_EXEC_FAILED => -1
  | OUTPUT_EXEC_AWAITING_ALLOCATION => 13
  | OUTPUT_EXEC_ALLOCATED => 12
  | OUTPUT_EXEC_SCHEDULED => 11
  | OUTPUT_EXEC_RUNNING => 7
  | OUTPUT_EXEC_STOPPED => 8
  | OUTPUT_EXEC_COMPLETED => 9
  | OUTPUT_EXEC_FAILED => -2
  | CLOSED => 10
  | CLOSED_FAILURE => -3
  | UNKNOWN => -10

/-- Second tuple component (`job_exec_phase`). -/
def job_exec_phase : JobStatus → JobExecPhase
  | CREATED => .INIT
  | MODEL_EXEC_AWAITING_ALLOCATION => .MODEL_EXEC
  | MODEL_EXEC_ALLOCATED => .MODEL_EXEC
  | MODEL_EXEC_SCHEDULED => .MODEL_EXEC
  | MODEL_EXEC_RUNNING => .MODEL_EXEC
  | MODEL_EXEC_STOPPED => .MODEL_EXEC
  | MODEL_EXEC_COMPLETED => .MODEL_EXEC
  | MODEL_EXEC_FAILED => .MODEL_EXEC
  | OUTPUT_EXEC_AWAITING_ALLOCATION => .OUTPUT_EXEC
  | OUTPUT_EXEC_ALLOCATED => .OUTPUT_EXEC
  | OUTPUT_EXEC_SCHEDULED => .OUTPUT_EXEC
  | OUTPUT_EXEC_RUNNING => .OUTPUT_EXEC
  | OUTPUT_EXEC_STOPPED => .OUTPUT_EXEC
  | OUTPUT_EXEC_COMPLETED => .OUTPUT_EXEC
  | OUTPUT_EXEC_FAILED => .OUTPUT_EXEC
  | CLOSED => .CLOSED
  | CLOSED_FAILURE => .CLOSED
  | UNKNOWN => .UNKNOWN

/-- Third tuple component (`job_exec_step`). -/
def job_exec_step : JobStatus → JobExecStep
  | CREATED => .DEFAULT
  | MODEL_EXEC_AWAITING_ALLOCATION => .AWAITING_ALLOCATION
  | MODEL_EXEC_ALLOCATED => .ALLOCATED
  | MODEL_EXEC_SCHEDULED => .SCHEDULED
  | MODEL_EXEC_RUNNING => .RUNNING
  | MODEL_EXEC_STOPPED => .STOPPED
  | MODEL_EXEC_COMPLETED => .COMPLETED
  | MODEL_EXEC_FAILED => .FAILED
  | OUTPUT_EXEC_AWAITING_ALLOCATION => .AWAITING_ALLOCATION
  | OUTPUT_EXEC_ALLOCATED => .ALLOCATED
  | OUTPUT_EXEC_SCHEDULED => .SCHEDULED
  | OUTPUT_EXEC_RUNNING => .RUNNING
  | OUTPUT_EXEC_STOPPED => .STOPPED
  | OUTPUT_EXEC_COMPLETED => .COMPLETED
  | OUTPUT_EXEC_FAILED => .FAILED
  | CLOSED => .COMPLETED
  | CLOSED_FAILURE => .FAILED
  | UNKNOWN => .DEFAULT

/-- Fourth tuple component (`should_release_allocations`; the Python
`__init__` default is `False` when the tuple has only three components). -/
def should_release_allocations : JobStatus → Bool
  | MODEL_EXEC_FAILED => true
  | OUTPUT_EXEC_COMPLETED => true
  | OUTPUT_EXEC_FAILED => true
  | CLOSED => true
  | CLOSED_FAILURE => true
  | _ => false

/-- `is_active` property: delegates to the phase. -/
def is_active (s : JobStatus) : Bool :=
  s.job_exec_phase.is_active

/-- Declaration order of the `JobStatus` members in job.py, which is the
iteration order of `for value in JobStatus`. -/
def values : List JobStatus :=
  [CREATED,
   MODEL_EXEC_AWAITING_ALLOCATION, MODEL_EXEC_ALLOCATED, MODEL_EXEC_SCHEDULED,
   MODEL_EXEC_RUNNING, MODEL_EXEC_STOPPED, MODEL_EXEC_COMPLETED, MODEL_EXEC_FAILED,
   OUTPUT_EXEC_AWAITING_ALLOCATION, OUTPUT_EXEC_ALLOCATED, OUTPUT_EXEC_SCHEDULED,
   OUTPUT_EXEC_RUNNING, OUTPUT_EXEC_STOPPED, OUTPUT_EXEC_COMPLETED, OUTPUT_EXEC_FAILED,
   CLOSED, CLOSED_FAILURE, UNKNOWN]

/-- `JobStatus.get_active_statuses`: filters the members in iteration order
by `is_active`, appending each hit. -/
def get_active_statuses : List JobStatus :=
  values.filter (fun v => v.is_active)

/-- `JobStatus.get_for_name`: `None`, non-string and empty inputs give
`UNKNOWN`; otherwise the lowered-and-stripped input is compared against the
lowered-and-stripped member names, `UNKNOWN` when unmatched. -/
def get_for_name : PyNameArg → JobStatus
  | .pynone => UNKNOWN
  | .nonstr => UNKNOWN
  | .pystr s =>
    if s.length = 0 then UNKNOWN
    else
      let formatted_name := pyStrip (pyLower s)
      match values.find? (fun v => decide (formatted_name = pyStrip (pyLower v.name))) with
      | some v => v
      | none => UNKNOWN

/-- `JobStatus.get_for_phase_and_step`: first member whose phase and step
both match, `UNKNOWN` otherwise (the Python `try`/`except` makes any
failure also yield `UNKNOWN`, so the function is total). -/
def get_for_phase_and_step (phase : JobExecPhase) (step : JobExecStep) : JobStatus :=
  match values.find? (fun v => decide (v.job_exec_phase = phase ∧ v.job_exec_step = step)) with
  | some v => v
  | none => UNKNOWN

end JobStatus

/-- A Python runtime value as it appears at the `job_id` property: `None`,
a `bytes` object (here a list of byte values), or a `str`. -/
inductive PyVal where
  | pynone
  | pybytes (b : List Nat)
  | pystring (s : String)
  deriving DecidableEq, Repr

/-- The 16-byte big-endian `UUID.bytes` representation of a UUID whose
128-bit integer value is `u`. -/
def uuid_bytes (u : Nat) : List Nat :=
  (List.range 16).map (fun i => u / 2 ^ (8 * (15 - i)) % 256)

/-- The error raised by the `job_id` setter when its string argument is not
parseable as a UUID (the spec's `InvalidIdentifier` error; concretely the
`ValueError` raised by the `UUID` constructor, which no code in job.py
catches). -/
inductive JobError where
  | InvalidIdentifier
  deriving DecidableEq, Repr

/-- Argument of the `job_id` setter: a `UUID` value (its 128-bit integer),
or a string to be parsed into one. -/
inductive JobIdInput where
  | fromUUID (u : Nat)
  | fromStr (s : String)
  deriving DecidableEq, Repr

/-- State of a `JobImpl` object.  `ResourceAllocation`, `RsaKeyPair` and
the `parameters` dict are external opaque collaborators, modelled as `Nat`
tokens; `datetime` timestamps are `Nat` clock readings; fields that start
as Python `None` are `Option`s.  Note `allocation_paradigm` is an `Option`
because `JobAllocationParadigm.get_from_name` can return `None` (its
fallback method has no `return` statement). -/
structure JobImpl where
  cpu_count : Int
  memory_size : Int
  parameters : Nat
  allocation_paradigm : Option JobAllocationParadigm
  allocation_priority : Int
  job_uuid : Option Nat
  rsa_key_pair : Option Nat
  status : JobStatus
  allocations : Option (List Nat)
  last_updated : Nat
  deriving DecidableEq, Repr

namespace JobImpl

/-- `JobImpl.__init__`: stores the resource fields, resolves the paradigm
name via `JobAllocationParadigm.get_from_name`, leaves `job_uuid`,
`rsa_key_pair` and `allocations` as `None`, sets status `CREATED`, and
calls `_reset_last_updated` (modelled by recording the ambient clock
`now`). -/
def init (cpu_count memory_size : Int) (parameters : Nat)
    (allocation_paradigm_str : PyNameArg) (alloc_priority : Int)
    (now : Nat) : JobImpl :=
  { cpu_count := cpu_count
    memory_size := memory_size
    parameters := parameters
    allocation_paradigm := JobAllocationParadigm.get_from_name allocation_paradigm_str
    allocation_priority := alloc_priority
    job_uuid := none
    rsa_key_pair := none
    status := JobStatus.CREATED
    allocations := none
    last_updated := now }

/-- `_reset_last_updated`: `self._last_updated = datetime.now()`. -/
def reset_last_updated (j : JobImpl) (now : Nat) : JobImpl :=
  { j with last_updated := now }

/-- Setter of `allocation_priority`: assigns, then `_reset_last_updated`. -/
def set_allocation_priority (j : JobImpl) (priority : Int) (now : Nat) : JobImpl :=
  ({ j with allocation_priority := priority }).reset_last_updated now

/-- Setter of `allocations`: assigns the list, then `_reset_last_updated`. -/
def set_allocations (j : JobImpl) (allocations : List Nat) (now : Nat) : JobImpl :=
  ({ j with allocations := some allocations }).reset_last_updated now

/-- Setter of `rsa_key_pair`: assigns, then `_reset_last_updated`. -/
def set_rsa_key_pair (j : JobImpl) (key_pair : Nat) (now : Nat) : JobImpl :=
  ({ j with rsa_key_pair := some key_pair }).reset_last_updated now

/-- Setter of `status`: assigns, then `_reset_last_updated`. -/
def set_status (j : JobImpl) (new_status : JobStatus) (now : Nat) : JobImpl :=
  ({ j with status := new_status }).reset_last_updated now

/-- Setter of `status_phase`: delegates to the `status` setter with
`get_for_phase_and_step(phase, phase.default_start_step)`. -/
def set_status_phase (j : JobImpl) (phase : JobExecPhase) (now : Nat) : JobImpl :=
  j.set_status (JobStatus.get_for_phase_and_step phase phase.default_start_step) now

/-- Setter of `status_step`: delegates to the `status` setter with
`get_for_phase_and_step(self.status.job_exec_phase, step)`. -/
def set_status_step (j : JobImpl) (step : JobExecStep) (now : Nat) : JobImpl :=
  j.set_status (JobStatus.get_for_phase_and_step j.status.job_exec_phase step) now

/-- `JobImpl.add_allocation`: when `self._allocations is None` it first
assigns `list()` through the `allocations` setter (which refreshes
`last_updated`); the subsequent `self.allocations.append(allocation)`
mutates the list in place through the getter, bypassing the setter, so no
`_reset_last_updated` happens for the append itself. -/
def add_allocation (j : JobImpl) (allocation : Nat) (now : Nat) : JobImpl :=
  match j.allocations with
  | none =>
    let j1 := j.set_allocations [] now
    { j1 with allocations := some [allocation] }
  | some l =>
    { j with allocations := some (l ++ [allocation]) }

/-- Getter of `job_id`: `self.job_uuid.bytes if isinstance(self.job_uuid,
UUID) else None` — the raw bytes form of the UUID, not its string form. -/
def job_id (j : JobImpl) : PyVal :=
  match j.job_uuid with
  | some u => PyVal.pybytes (uuid_bytes u)
  | none => PyVal.pynone

/-- Setter of `job_id`, parameterized by the external `UUID` string parser
(Python's `uuid.UUID` constructor, stdlib code outside this repository): a
`UUID` argument is stored directly; a string is parsed, the `ValueError`
of an unparseable string propagating uncaught (`InvalidIdentifier`).  On
success `_reset_last_updated` runs. -/
def set_job_id (parse : String → Option Nat) (j : JobImpl) (v : JobIdInput)
    (now : Nat) : Except JobError JobImpl :=
  match v with
  | .fromUUID u => .ok (({ j with job_uuid := some u }).reset_last_updated now)
  | .fromStr s =>
    match parse s with
    | some u => .ok (({ j with job_uuid := some u }).reset_last_updated now)
    | none => .error JobError.InvalidIdentifier

end JobImpl

/-- The right-hand operand of `Job.__eq__`: another job, or a non-job value
carrying its own `__eq__` method (to which comparison is delegated). -/
inductive JobEqOperand where
  | job (other : JobImpl)
  | nonjob (eqOther : JobImpl → Bool)

/-- `Job.__eq__`: equality of `job_id`s when the other operand is a `Job`,
otherwise `other.__eq__(self)`. -/
def Job_eq (self : JobImpl) : JobEqOperand → Bool
  | .job other => decide (self.job_id = other.job_id)
  | .nonjob eqOther => eqOther self

/-- `Job.__hash__`: `hash(self.job_id)`, parameterized by Python's hash
function on the id value. -/
def Job_hash (pyhash : PyVal → Int) (self : JobImpl) : Int :=
  pyhash self.job_id

/-- The right-hand operand of `JobStatus.__eq__`: another status, an
`int`, a `float` (split by `is_integer()`: an integer-valued float carries
the integer `int(other)`), a `str`, or anything else. -/
inductive StatusEqOperand where
  | status (o : JobStatus)
  | intVal (i : Int)
  | floatIntegral (i : Int)
  | floatNonIntegral
  | strVal (s : String)
  | otherVal

/-- `JobStatus.__eq__`: uid comparison against statuses, ints and
integer-valued floats; a string operand is resolved through
`get_for_name` and compared as a status (uid comparison); anything else
compares `False`. -/
def JobStatus.py_eq (self : JobStatus) : StatusEqOperand → Bool
  | .status o => decide (self.uid = o.uid)
  | .intVal i => decide (self.uid = i)
  | .floatIntegral i => decide (self.uid = i)
  | .floatNonIntegral => false
  | .strVal s => decide (self.uid = (JobStatus.get_for_name (.pystr s)).uid)
  | .otherVal => false

/-- `JobStatus.__hash__`: returns `self.uid`. -/
def JobStatus.py_hash (self : JobStatus) : Int :=
  self.uid

/-- The fields of a `SchedulerRequestMessage` consumed by `RequestedJob`
(the message class itself is an external collaborator). -/
structure SchedulerRequestMessage where
  cpus : Int
  memory : Int
  model_request_parameters : Nat
  allocation_paradigm : PyNameArg
  deriving Repr

/-- State of a `RequestedJob`: the inherited `JobImpl` state plus the
retained originating request. -/
structure RequestedJob where
  toJobImpl : JobImpl
  originating_request : SchedulerRequestMessage
  deriving Repr

/-- `RequestedJob.__init__`: stores the request and calls
`JobImpl.__init__` with the request's fields (priority left at its
default 0). -/
def RequestedJob.init (job_request : SchedulerRequestMessage) (now : Nat) : RequestedJob :=
  { toJobImpl := JobImpl.init job_request.cpus job_request.memory
      job_request.model_request_parameters job_request.allocation_paradigm 0 now
    originating_request := job_request }

/-- The §3 status table of the spec, one row per status:
(id, phase, step, release flag).  This definition follows the SPEC's
words, to be compared against the embedded code. -/
def specTableRow : JobStatus → Int × JobExecPhase × JobExecStep × Bool
  | .CREATED => (0, .INIT, .DEFAULT, false)
  | .MODEL_EXEC_AWAITING_ALLOCATION => (1, .MODEL_EXEC, .AWAITING_ALLOCATION, false)
  | .MODEL_EXEC_ALLOCATED => (2, .MODEL_EXEC, .ALLOCATED, false)
  | .MODEL_EXEC_SCHEDULED => (3, .MODEL_EXEC, .SCHEDULED, false)
  | .MODEL_EXEC_RUNNING => (4, .MODEL_EXEC, .RUNNING, false)
  | .MODEL_EXEC_STOPPED => (5, .MODEL_EXEC, .STOPPED, false)
  | .MODEL_EXEC_COMPLETED => (6, .MODEL_EXEC, .COMPLETED, false)
  | .OUTPUT_EXEC_RUNNING => (7, .OUTPUT_EXEC, .RUNNING, false)
  | .OUTPUT_EXEC_STOPPED => (8, .OUTPUT_EXEC, .STOPPED, false)
  | .OUTPUT_EXEC_COMPLETED => (9, .OUTPUT_EXEC, .COMPLETED, true)
  | .CLOSED => (10, .CLOSED, .COMPLETED, true)
  | .OUTPUT_EXEC_SCHEDULED => (11, .OUTPUT_EXEC, .SCHEDULED, false)
  | .OUTPUT_EXEC_ALLOCATED => (12, .OUTPUT_EXEC, .ALLOCATED, false)
  | .OUTPUT_EXEC_AWAITING_ALLOCATION => (13, .OUTPUT_EXEC, .AWAITING_ALLOCATION, false)
  | .MODEL_EXEC_FAILED => (-1, .MODEL_EXEC, .FAILED, true)
  | .OUTPUT_EXEC_FAILED => (-2, .OUTPUT_EXEC, .FAILED, true)
  | .CLOSED_FAILURE => (-3, .CLOSED, .FAILED, true)
  | .UNKNOWN => (-10, .UNKNOWN, .DEFAULT, false)

/-- The order in which claim C4 asserts `get_active_statuses` returns its
elements: the spec's §3 table order restricted to active statuses.  This
definition follows the CLAIM's words, to be compared against the embedded
code. -/
def claimedActiveStatusOrder : List JobStatus :=
  [.CREATED,
   .MODEL_EXEC_AWAITING_ALLOCATION, .MODEL_EXEC_ALLOCATED, .MODEL_EXEC_SCHEDULED,
   .MODEL_EXEC_RUNNING, .MODEL_EXEC_STOPPED, .MODEL_EXEC_COMPLETED,
   .OUTPUT_EXEC_RUNNING, .OUTPUT_EXEC_STOPPED, .OUTPUT_EXEC_COMPLETED,
   .OUTPUT_EXEC_SCHEDULED, .OUTPUT_EXEC_ALLOCATED, .OUTPUT_EXEC_AWAITING_ALLOCATION,
   .MODEL_EXEC_FAILED, .OUTPUT_EXEC_FAILED]

/-- A concrete freshly constructed job, used to instantiate the
universally quantified theorems below at a specific input. -/
def sampleJob : JobImpl :=
  JobImpl.init 4 1024 0 (.pystr "ROUND_ROBIN") 0 3

/-- A concrete job with an assigned UUID (integer value 77). -/
def jobA : JobImpl :=
  { JobImpl.init 4 1024 0 (.pystr "SINGLE_NODE") 0 3 with job_uuid := some 77 }

/-- A second concrete job with different resource and parameter fields but
the same assigned UUID as `jobA`. -/
def jobB : JobImpl :=
  { JobImpl.init 8 2048 1 (.pystr "FILL_NODES") 2 5 with job_uuid := some 77 }

/-- A concrete stand-in for the external UUID string parser: accepts
exactly the string "good" (as UUID value 42). -/
def parseSample : String → Option Nat :=
  fun s => if s = "good" then some 42 else none

/-- Injectivity of the status ids: two statuses agree on `uid` exactly
when they are the same status (shared helper). -/
theorem jobStatus_uid_inj : ∀ a b : JobStatus, a.uid = b.uid ↔ a = b := by
  decide

/-- Claim C1 (code bug): `get_from_name` is supposed (per the spec and per
the docstrings of `get_from_name` / `get_default_selection`) to fall back
to `SINGLE_NODE` for `None`, non-string or unmatched inputs, but
`get_default_selection`'s body is only a docstring with no `return`, so
the fallback is Python `None` instead; the exact case-sensitive matching
on the trimmed name does work for recognized names. -/
theorem get_from_name_fallback_returns_pynone :
  JobAllocationParadigm.get_from_name .pynone = none ∧
  JobAllocationParadigm.get_from_name .nonstr = none ∧
  JobAllocationParadigm.get_from_name (.pystr "bogus") = none ∧
  (∀ p : JobAllocationParadigm,
    JobAllocationParadigm.get_from_name (.pystr p.name) = some p) ∧
  JobAllocationParadigm.get_from_name (.pystr "  ROUND_ROBIN  ") = some .ROUND_ROBIN ∧
  JobAllocationParadigm.get_from_name (.pystr "single_node") = none ∧
  (none : Option JobAllocationParadigm) ≠ some JobAllocationParadigm.SINGLE_NODE := by
  decide

/-- Claim C2: every one of the 18 `JobStatus` members carries exactly the
(id, phase, step, release-flag) row the spec's §3 table assigns it, and
two statuses agree on their (phase, step) pair exactly when they are the
same status. -/
theorem jobStatus_table_matches_spec :
  (∀ s : JobStatus,
    (s.uid, s.job_exec_phase, s.job_exec_step, s.should_release_allocations) = specTableRow s) ∧
  (∀ a b : JobStatus,
    (a.job_exec_phase, a.job_exec_step) = (b.job_exec_phase, b.job_exec_step) ↔ a = b) := by
  decide

/-- Witness for C2 at concrete statuses. -/
theorem jobStatus_table_matches_spec_witness :
  (JobStatus.OUTPUT_EXEC_COMPLETED.uid, JobStatus.OUTPUT_EXEC_COMPLETED.job_exec_phase,
   JobStatus.OUTPUT_EXEC_COMPLETED.job_exec_step,
   JobStatus.OUTPUT_EXEC_COMPLETED.should_release_allocations)
      = specTableRow JobStatus.OUTPUT_EXEC_COMPLETED ∧
  ((JobStatus.CREATED.job_exec_phase, JobStatus.CREATED.job_exec_step)
      = (JobStatus.UNKNOWN.job_exec_phase, JobStatus.UNKNOWN.job_exec_step)
    ↔ JobStatus.CREATED = JobStatus.UNKNOWN) :=
  ⟨jobStatus_table_matches_spec.1 JobStatus.OUTPUT_EXEC_COMPLETED,
   jobStatus_table_matches_spec.2 JobStatus.CREATED JobStatus.UNKNOWN⟩

/-- Claim C3: `get_for_phase_and_step` is a total function that returns
the (unique) status carrying the requested (phase, step) pair when the
table has one, and `UNKNOWN` for every pair the table lacks. -/
theorem get_for_phase_and_step_resolves_or_unknown :
  ∀ (p : JobExecPhase) (s : JobExecStep),
    (∀ st : JobStatus, st.job_exec_phase = p → st.job_exec_step = s →
      JobStatus.get_for_phase_and_step p s = st) ∧
    ((∀ st : JobStatus, st.job_exec_phase ≠ p ∨ st.job_exec_step ≠ s) →
      JobStatus.get_for_phase_and_step p s = JobStatus.UNKNOWN) := by
  decide

/-- Witness for C3: a mapped pair resolves to its status, and the
individually-valid-but-never-paired (INIT, RUNNING) yields `UNKNOWN`. -/
theorem get_for_phase_and_step_resolves_or_unknown_witness :
  JobStatus.get_for_phase_and_step .MODEL_EXEC .AWAITING_ALLOCATION
      = JobStatus.MODEL_EXEC_AWAITING_ALLOCATION ∧
  JobStatus.get_for_phase_and_step .INIT .RUNNING = JobStatus.UNKNOWN :=
  ⟨(get_for_phase_and_step_resolves_or_unknown .MODEL_EXEC .AWAITING_ALLOCATION).1
      JobStatus.MODEL_EXEC_AWAITING_ALLOCATION rfl rfl,
   (get_for_phase_and_step_resolves_or_unknown .INIT .RUNNING).2 (by decide)⟩

/-- Counterexample to claim C4: `get_active_statuses` does NOT return its
elements in the spec's §3 table order — at index 7 the code returns
`MODEL_EXEC_FAILED` where the claimed order has `OUTPUT_EXEC_RUNNING`. -/
theorem get_active_statuses_not_in_claimed_order :
  JobStatus.get_active_statuses ≠ claimedActiveStatusOrder ∧
  JobStatus.get_active_statuses.get? 7 = some JobStatus.MODEL_EXEC_FAILED ∧
  claimedActiveStatusOrder.get? 7 = some JobStatus.OUTPUT_EXEC_RUNNING := by
  decide

/-- Claim C4 (amended): `get_active_statuses` returns exactly the statuses
whose phase is active (INIT, MODEL_EXEC, OUTPUT_EXEC), in the enum's
declaration order. -/
theorem get_active_statuses_declaration_order :
  JobStatus.get_active_statuses =
    [.CREATED,
     .MODEL_EXEC_AWAITING_ALLOCATION, .MODEL_EXEC_ALLOCATED, .MODEL_EXEC_SCHEDULED,
     .MODEL_EXEC_RUNNING, .MODEL_EXEC_STOPPED, .MODEL_EXEC_COMPLETED, .MODEL_EXEC_FAILED,
     .OUTPUT_EXEC_AWAITING_ALLOCATION, .OUTPUT_EXEC_ALLOCATED, .OUTPUT_EXEC_SCHEDULED,
     .OUTPUT_EXEC_RUNNING, .OUTPUT_EXEC_STOPPED, .OUTPUT_EXEC_COMPLETED, .OUTPUT_EXEC_FAILED] ∧
  ∀ st : JobStatus, st ∈ JobStatus.get_active_statuses ↔ st.job_exec_phase.is_active = true := by
  decide

/-- Witness for C4's amended theorem at concrete statuses. -/
theorem get_active_statuses_declaration_order_witness :
  (JobStatus.CREATED ∈ JobStatus.get_active_statuses
    ↔ JobStatus.CREATED.job_exec_phase.is_active = true) ∧
  (JobStatus.CLOSED ∈ JobStatus.get_active_statuses
    ↔ JobStatus.CLOSED.job_exec_phase.is_active = true) :=
  ⟨get_active_statuses_declaration_order.2 JobStatus.CREATED,
   get_active_statuses_declaration_order.2 JobStatus.CLOSED⟩

/-- Counterexample to claim C5: `add_allocation` on a job whose allocation
list already exists appends through the getter, bypassing the setter, so
`last_updated` is NOT refreshed: a job last updated at 10 keeps 10 after
an `add_allocation` call at clock 99. -/
theorem add_allocation_existing_list_keeps_last_updated :
  (JobImpl.add_allocation
    { cpu_count := 4, memory_size := 1024, parameters := 0,
      allocation_paradigm := some JobAllocationParadigm.SINGLE_NODE,
      allocation_priority := 0, job_uuid := none, rsa_key_pair := none,
      status := JobStatus.MODEL_EXEC_RUNNING, allocations := some [5],
      last_updated := 10 } 7 99).last_updated = 10 ∧
  (10 : Nat) ≠ 99 := by
  decide

/-- Claim C5 (amended): every property setter (priority, status, phase,
step, allocations, key pair, identifier) refreshes `last_updated` to the
clock of the call; `add_allocation` refreshes it only when it initializes
the allocation list, its in-place append leaving `last_updated`
unchanged. -/
theorem setters_refresh_last_updated :
  ∀ (j : JobImpl) (now : Nat) (p : Int) (st : JobStatus) (ph : JobExecPhase)
    (sp : JobExecStep) (al : List Nat) (k a u : Nat) (parse : String → Option Nat),
    (j.set_allocation_priority p now).last_updated = now ∧
    (j.set_status st now).last_updated = now ∧
    (j.set_status_phase ph now).last_updated = now ∧
    (j.set_status_step sp now).last_updated = now ∧
    (j.set_allocations al now).last_updated = now ∧
    (j.set_rsa_key_pair k now).last_updated = now ∧
    (∀ j2, JobImpl.set_job_id parse j (.fromUUID u) now = .ok j2 → j2.last_updated = now) ∧
    (j.allocations = none → (j.add_allocation a now).last_updated = now) ∧
    (∀ l, j.allocations = some l → (j.add_allocation a now).last_updated = j.last_updated) := by
  intro j now p st ph sp al k a u parse
  refine ⟨rfl, rfl, rfl, rfl, rfl, rfl, ?_, ?_, ?_⟩
  · intro j2 h
    injection h with h2
    subst h2
    rfl
  · intro h
    simp [JobImpl.add_allocation, h, JobImpl.set_allocations, JobImpl.reset_last_updated]
  · intro l h
    simp [JobImpl.add_allocation, h]

/-- Witness for C5's amended theorem at concrete jobs and clocks. -/
theorem setters_refresh_last_updated_witness :
  (sampleJob.set_allocation_priority 5 7).last_updated = 7 ∧
  (sampleJob.add_allocation 9 7).last_updated = 7 ∧
  ((sampleJob.set_allocations [1] 7).add_allocation 9 8).last_updated
    = (sampleJob.set_allocations [1] 7).last_updated :=
  ⟨(setters_refresh_last_updated sampleJob 7 5 .CREATED .INIT .DEFAULT [1] 0 9 0
      (fun _ => none)).1,
   (setters_refresh_last_updated sampleJob 7 5 .CREATED .INIT .DEFAULT [1] 0 9 0
      (fun _ => none)).2.2.2.2.2.2.2.1 rfl,
   (setters_refresh_last_updated (sampleJob.set_allocations [1] 7) 8 5 .CREATED .INIT
      .DEFAULT [1] 0 9 0 (fun _ => none)).2.2.2.2.2.2.2.2 [1] rfl⟩

/-- Claim C6: two jobs compare equal exactly when their `job_id`s are
equal; comparison against a non-job delegates to the other value's own
equality; the hash is derived solely from `job_id` (ids equal forces
hashes equal, whatever Python's hash function does on the id value). -/
theorem job_eq_iff_same_job_id :
  ∀ (a b : JobImpl) (pyhash : PyVal → Int) (f : JobImpl → Bool),
    (Job_eq a (.job b) = true ↔ a.job_id = b.job_id) ∧
    Job_eq a (.nonjob f) = f a ∧
    (a.job_id = b.job_id → Job_hash pyhash a = Job_hash pyhash b) := by
  intro a b pyhash f
  refine ⟨?_, rfl, ?_⟩
  · simp [Job_eq]
  · intro h
    simp [Job_hash, h]

/-- Witness for C6: `jobA` and `jobB` differ in every resource field but
share UUID 77, so they are equal and hash identically, and a non-job
operand's own equality decides the comparison. -/
theorem job_eq_iff_same_job_id_witness :
  Job_eq jobA (.job jobB) = true ∧
  Job_hash (fun v => match v with | .pybytes b => (b.length : Int) | _ => 0) jobA
    = Job_hash (fun v => match v with | .pybytes b => (b.length : Int) | _ => 0) jobB ∧
  Job_eq jobA (.nonjob (fun _ => true)) = true :=
  ⟨(job_eq_iff_same_job_id jobA jobB
      (fun v => match v with | .pybytes b => (b.length : Int) | _ => 0)
      (fun _ => true)).1.mpr rfl,
   (job_eq_iff_same_job_id jobA jobB
      (fun v => match v with | .pybytes b => (b.length : Int) | _ => 0)
      (fun _ => true)).2.2 rfl,
   (job_eq_iff_same_job_id jobA jobB
      (fun v => match v with | .pybytes b => (b.length : Int) | _ => 0)
      (fun _ => true)).2.1⟩

/-- Claim C7: assigning phase `MODEL_EXEC` through the `status_phase`
setter resolves, for every prior state, to status
`MODEL_EXEC_AWAITING_ALLOCATION` (the phase's default start step fed back
through the table). -/
theorem status_phase_model_exec_gives_awaiting_allocation :
  ∀ (j : JobImpl) (now : Nat),
    (j.set_status_phase .MODEL_EXEC now).status
      = JobStatus.MODEL_EXEC_AWAITING_ALLOCATION := by
  intro j now
  rfl

/-- Claim C8: the `job_id` setter fails with `InvalidIdentifier` exactly
on strings the UUID parser rejects, succeeds on parseable strings and on
UUID values; the other mutators are total functions (they return a plain
`JobImpl`, mirroring code with no raise path). -/
theorem set_job_id_invalid_identifier :
  ∀ (parse : String → Option Nat) (j : JobImpl) (s : String) (u : Nat) (now : Nat),
    (parse s = none →
      JobImpl.set_job_id parse j (.fromStr s) now = .error JobError.InvalidIdentifier) ∧
    (parse s = some u →
      JobImpl.set_job_id parse j (.fromStr s) now =
        .ok (({ j with job_uuid := some u }).reset_last_updated now)) ∧
    JobImpl.set_job_id parse j (.fromUUID u) now =
      .ok (({ j with job_uuid := some u }).reset_last_updated now) := by
  intro parse j s u now
  refine ⟨?_, ?_, rfl⟩ <;> intro h <;> simp [JobImpl.set_job_id, h]

/-- Witness for C8: the sample parser rejects "bogus" (the error
propagates as the result) and accepts "good". -/
theorem set_job_id_invalid_identifier_witness :
  JobImpl.set_job_id parseSample sampleJob (.fromStr "bogus") 9
    = .error JobError.InvalidIdentifier ∧
  JobImpl.set_job_id parseSample sampleJob (.fromStr "good") 9
    = .ok (({ sampleJob with job_uuid := some 42 }).reset_last_updated 9) :=
  ⟨(set_job_id_invalid_identifier parseSample sampleJob "bogus" 42 9).1 rfl,
   (set_job_id_invalid_identifier parseSample sampleJob "good" 42 9).2.1 rfl⟩

/-- Claim C9: `JobStatus.__eq__` accepts statuses, ints and integer-valued
floats by uid comparison, resolves strings through `get_for_name` (so any
unrecognized string equals `UNKNOWN`), rejects every other type, and the
hash of a status is its uid. -/
theorem jobStatus_py_eq_contract :
  ∀ (a : JobStatus),
    (∀ b : JobStatus, a.py_eq (.status b) = true ↔ a.uid = b.uid) ∧
    (∀ i : Int, a.py_eq (.intVal i) = true ↔ a.uid = i) ∧
    (∀ i : Int, a.py_eq (.floatIntegral i) = true ↔ a.uid = i) ∧
    (∀ s : String, a.py_eq (.strVal s) = true ↔ JobStatus.get_for_name (.pystr s) = a) ∧
    a.py_eq .floatNonIntegral = false ∧
    a.py_eq .otherVal = false ∧
    a.py_hash = a.uid ∧
    (∀ s : String, JobStatus.get_for_name (.pystr s) = JobStatus.UNKNOWN →
      JobStatus.UNKNOWN.py_eq (.strVal s) = true) := by
  intro a
  refine ⟨fun b => by simp [JobStatus.py_eq], fun i => by simp [JobStatus.py_eq],
    fun i => by simp [JobStatus.py_eq], fun s => ?_, rfl, rfl, rfl, fun s h => ?_⟩
  · have h2 := jobStatus_uid_inj a (JobStatus.get_for_name (.pystr s))
    simp [JobStatus.py_eq, h2, eq_comm]
  · simp [JobStatus.py_eq, h]

/-- Witness for C9 at concrete operands: `MODEL_EXEC_RUNNING` equals the
int 4, and `UNKNOWN` equals an arbitrary unrecognized string. -/
theorem jobStatus_py_eq_contract_witness :
  (JobStatus.MODEL_EXEC_RUNNING.py_eq (.intVal 4) = true
    ↔ JobStatus.MODEL_EXEC_RUNNING.uid = 4) ∧
  JobStatus.UNKNOWN.py_eq (.strVal "totally bogus") = true :=
  ⟨(jobStatus_py_eq_contract JobStatus.MODEL_EXEC_RUNNING).2.1 4,
   (jobStatus_py_eq_contract JobStatus.UNKNOWN).2.2.2.2.2.2.2 "totally bogus" (by decide)⟩

/-- Claim C10: the `job_id` getter returns `None` on every freshly
constructed `JobImpl` or `RequestedJob`; after an identifier is assigned
from a parseable string it returns the 16-byte `bytes` form of the stored
UUID, which is never equal to any string value (in particular not to the
original string). -/
theorem job_id_getter_bytes_not_string :
  ∀ (parse : String → Option Nat) (c m : Int) (p : Nat) (nm : PyNameArg) (pr : Int)
    (now : Nat) (j : JobImpl) (s : String) (u : Nat) (req : SchedulerRequestMessage),
    (JobImpl.init c m p nm pr now).job_id = PyVal.pynone ∧
    (RequestedJob.init req now).toJobImpl.job_id = PyVal.pynone ∧
    (parse s = some u →
      ∃ j2, JobImpl.set_job_id parse j (.fromStr s) now = .ok j2 ∧
        j2.job_id = PyVal.pybytes (uuid_bytes u) ∧
        (uuid_bytes u).length = 16 ∧
        ∀ t : String, j2.job_id ≠ PyVal.pystring t) := by
  intro parse c m p nm pr now j s u req
  refine ⟨rfl, rfl, ?_⟩
  intro h
  refine ⟨({ j with job_uuid := some u }).reset_last_updated now, ?_, ?_, ?_, ?_⟩
  · simp [JobImpl.set_job_id, h]
  · rfl
  · simp [uuid_bytes]
  · intro t
    simp [JobImpl.job_id, JobImpl.reset_last_updated]

/-- Witness for C10: the fresh sample job reads `None`; assigning from the
parseable string "good" stores UUID 42 and reads back 16 raw bytes, not a
string. -/
theorem job_id_getter_bytes_not_string_witness :
  sampleJob.job_id = PyVal.pynone ∧
  (∃ j2, JobImpl.set_job_id parseSample sampleJob (.fromStr "good") 9 = .ok j2 ∧
    j2.job_id = PyVal.pybytes (uuid_bytes 42) ∧
    (uuid_bytes 42).length = 16 ∧
    ∀ t : String, j2.job_id ≠ PyVal.pystring t) :=
  ⟨(job_id_getter_bytes_not_string parseSample 4 1024 0 (.pystr "ROUND_ROBIN") 0 3
      sampleJob "good" 42 ⟨4, 1024, 0, .pystr "ROUND_ROBIN"⟩).1,
   (job_id_getter_bytes_not_string parseSample 4 1024 0 (.pystr "ROUND_ROBIN") 0 9
      sampleJob "good" 42 ⟨4, 1024, 0, .pystr "ROUND_ROBIN"⟩).2.2 rfl⟩

end DMOD
